import Mathlib

/-!
Shallow embedding of the interaction layer of src/script.js
(marketing-site client code: mobile menu, scroll-to-top, smooth anchor
scrolling, FAQ accordion, scroll-reveal animations, header scroll state).

Modelling conventions, shared by all modules below:
* a DOM classList is an ordered, duplicate-free token list (List String);
  classList.add appends when absent, classList.remove filters the token out,
  classList.toggle removes when present and appends otherwise;
* getAttribute returns Option String (none = attribute absent); setAttribute
  with a JavaScript boolean stores the coerced string "true" / "false";
* a statement such as element.style.maxHeight = v is recorded in a maxHeight
  field; timers (setTimeout) are recorded as explicit pending tasks or as an
  explicit before/after pair of observations;
* a JavaScript TypeError / DOMException escaping a handler is modelled by a
  Bool flag (threw) or an Except error alongside the partially mutated state,
  since the source installs no try/catch on any of these paths.
-/

/-- classList.add: appends the token when it is not already present. -/
def classAdd (cs : List String) (c : String) : List String :=
  if c ∈ cs then cs else cs ++ [c]

/-- classList.remove: removes the token. -/
def classRemove (cs : List String) (c : String) : List String :=
  cs.filter (fun x => x ≠ c)

/-- classList.toggle: removes the token when present, appends it otherwise. -/
def classToggle (cs : List String) (c : String) : List String :=
  if c ∈ cs then classRemove cs c else cs ++ [c]

/-- State touched by the MobileMenu module: the aria-expanded attribute of the
menu button, the classList of the menu container, the classList of the icon
element inside the button (none when the button holds no icon, matching the
if (icon) guard in the source), and document.body.style.overflow. -/
structure MenuState where
  ariaExpanded : Option String
  menuClasses : List String
  iconClasses : Option (List String)
  bodyOverflow : String
deriving Repr, DecidableEq

namespace MobileMenu

/-- MobileMenu.toggleMenu (src/script.js lines 84-98): reads
isExpanded = getAttribute aria-expanded === true, writes the negation back,
toggles the active class on the container, toggles fa-bars / fa-times on the
icon when present, and sets body overflow to hidden when opening, to the
empty string when closing. -/
def toggleMenu (s : MenuState) : MenuState :=
  if s.ariaExpanded = some "true" then
    { ariaExpanded := some "false"
      menuClasses := classToggle s.menuClasses "active"
      iconClasses := s.iconClasses.map
        (fun ic => classToggle (classToggle ic "fa-bars") "fa-times")
      bodyOverflow := "" }
  else
    { ariaExpanded := some "true"
      menuClasses := classToggle s.menuClasses "active"
      iconClasses := s.iconClasses.map
        (fun ic => classToggle (classToggle ic "fa-bars") "fa-times")
      bodyOverflow := "hidden" }

/-- MobileMenu.closeMenu (src/script.js lines 103-116): sets aria-expanded to
"false", removes the active class, restores the icon (add fa-bars, remove
fa-times) when an icon exists, and re-enables body scroll. -/
def closeMenu (s : MenuState) : MenuState :=
  { ariaExpanded := some "false"
    menuClasses := classRemove s.menuClasses "active"
    iconClasses := s.iconClasses.map
      (fun ic => classRemove (classAdd ic "fa-bars") "fa-times")
    bodyOverflow := "" }

end MobileMenu

/-- State of one throttled wrapper (ScrollToTop.throttle, lines 186-197, and
the identical HeaderScroll.throttle, lines 485-496): inThrottle is true
exactly while the reset timer scheduled by setTimeout(, limit) is pending,
so the state is the absolute time at which that timer fires (none when no
invocation has happened yet or the timer already fired). -/
structure ThrottleState where
  cooldownUntil : Option Nat
deriving Repr, DecidableEq

/-- One call of the throttled wrapper at absolute time t: when inThrottle is
false (no cooldown, or the reset timer at u has already fired because
u ≤ t), the wrapped function runs (Bool result true) and a new reset timer
is scheduled for t + limit; otherwise the call is dropped. -/
def throttleCall (limit : Nat) (s : ThrottleState) (t : Nat) :
    ThrottleState × Bool :=
  match s.cooldownUntil with
  | some u => if t < u then (s, false) else (⟨some (t + limit)⟩, true)
  | none => (⟨some (t + limit)⟩, true)

/-- Folds throttleCall over a list of call times, returning the times at
which the wrapped function was actually invoked. -/
def throttleRun (limit : Nat) : ThrottleState → List Nat → List Nat
  | _, [] => []
  | s, t :: ts =>
    match throttleCall limit s t with
    | (s2, true) => t :: throttleRun limit s2 ts
    | (s2, false) => throttleRun limit s2 ts

/-- An element a fragment can resolve to: its id attribute and its
document offset (offsetTop). -/
structure PageElement where
  eid : String
  offsetTop : Int
deriving Repr, DecidableEq

/-- The document context read by SmoothScrolling.handleAnchorClick: the
elements addressable by id, the offsetHeight of the .header element (none
when no header exists), and whether MobileMenu.init found both the menu
button and the menu container (when it did not, this.mobileMenuButton is
null and MobileMenu.closeMenu throws a TypeError). -/
structure PageDoc where
  elements : List PageElement
  headerHeight : Option Nat
  menuPresent : Bool
deriving Repr, DecidableEq

/-- First character of a CSS identifier in the modelled selector grammar. -/
def cssIdentStartChar (c : Char) : Bool :=
  c.isAlpha || c = '_'

/-- Subsequent character of a CSS identifier in the modelled grammar. -/
def cssIdentTailChar (c : Char) : Bool :=
  c.isAlphanum || c = '_' || c = '-'

/-- Validity of the string passed to document.querySelector by
handleAnchorClick. The links matched by a[href^="#"] always start with #,
and the selector is valid exactly when what follows # is a CSS identifier;
in particular the bare "#" (empty identifier) is an invalid selector and
querySelector throws a SyntaxError DOMException on it. The model restricts
identifiers to [A-Za-z_][A-Za-z0-9_-]*, the fragment of the CSS grammar
relevant to id fragments. -/
def fragmentSelectorValid (href : String) : Bool :=
  match (href.drop 1).data with
  | [] => false
  | c :: cs => cssIdentStartChar c && cs.all cssIdentTailChar

/-- document.querySelector(targetId) for an id selector: throws on an
invalid selector, otherwise returns the first element whose id matches the
part after #, or none. -/
def querySelectorId (doc : PageDoc) (href : String) :
    Except Unit (Option PageElement) :=
  if fragmentSelectorValid href = true then
    .ok (doc.elements.find? (fun e => decide (e.eid = href.drop 1)))
  else
    .error ()

/-- Observable outcome of one anchor click: whether preventDefault ran,
whether the handler threw, whether MobileMenu.closeMenu completed, the
offset passed to window.scrollTo (none when no scroll was issued), the id
of the element given focus, and the fragment pushed via history.pushState. -/
structure ClickResult where
  prevented : Bool
  threw : Bool
  menuClosed : Bool
  scrolledTo : Option Int
  focusedId : Option String
  pushedHash : Option String
deriving Repr, DecidableEq

namespace SmoothScrolling

/-- SmoothScrolling.handleAnchorClick (src/script.js lines 229-257):
preventDefault always runs first; querySelector may throw (invalid
selector); on a miss nothing further happens; on a hit the handler calls
MobileMenu.closeMenu (which throws when the menu button is absent), computes
targetPosition = target.offsetTop - headerHeight - 20 with headerHeight =
querySelector(.header)?.offsetHeight || 0, scrolls there, moves focus to the
target, and pushes the fragment unless it is the bare "#". -/
def handleAnchorClick (doc : PageDoc) (href : String) : ClickResult :=
  match querySelectorId doc href with
  | .error _ =>
    { prevented := true, threw := true, menuClosed := false
      scrolledTo := none, focusedId := none, pushedHash := none }
  | .ok none =>
    { prevented := true, threw := false, menuClosed := false
      scrolledTo := none, focusedId := none, pushedHash := none }
  | .ok (some target) =>
    if doc.menuPresent = true then
      { prevented := true, threw := false, menuClosed := true
        scrolledTo := some (target.offsetTop - (doc.headerHeight.getD 0 : Int) - 20)
        focusedId := some target.eid
        pushedHash := if href = "#" then none else some href }
    else
      { prevented := true, threw := true, menuClosed := false
        scrolledTo := none, focusedId := none, pushedHash := none }

/-- The tabindex attribute of the focus target at the two observation points
of SmoothScrolling.updateFocus: right after target.focus() runs, and after
the 1000 ms cleanup timer has fired. -/
structure FocusTrace where
  duringFocus : Option String
  afterTimeout : Option String
deriving Repr, DecidableEq

/-- SmoothScrolling.updateFocus (src/script.js lines 263-278): when the
target has no tabindex attribute, setAttribute tabindex -1; focus; one
second later, removeAttribute tabindex if its current value is the string
-1 (note: this also fires for a pre-existing tabindex of -1). -/
def updateFocus (tab0 : Option String) : FocusTrace :=
  let t1 : Option String :=
    match tab0 with
    | none => some "-1"
    | some v => some v
  { duringFocus := t1
    afterTimeout := if t1 = some "-1" then none else t1 }

end SmoothScrolling

/-- The answer element of an FAQ pair (question.nextElementSibling): its
classList, its scrollHeight (measured full content height), and its
style.maxHeight. -/
structure FAQAnswer where
  classes : List String
  scrollHeight : Nat
  maxHeight : Option String
deriving Repr, DecidableEq

/-- One FAQ question element together with its adjacent answer: the
aria-expanded attribute of the question, the classList of the question, and
the answer element (none when the question has no next element sibling). -/
structure FAQItem where
  ariaExpanded : Option String
  qClasses : List String
  answer : Option FAQAnswer
deriving Repr, DecidableEq

namespace FAQ

/-- FAQ.animateHeight (src/script.js lines 356-362): sets
style.maxHeight to scrollHeight + "px" when expanding, to "0px" when
collapsing. -/
def animateHeight (a : FAQAnswer) (expand : Bool) : FAQAnswer :=
  if expand then { a with maxHeight := some (toString a.scrollHeight ++ "px") }
  else { a with maxHeight := some "0px" }

/-- Body of the forEach inside FAQ.closeAllFAQs for a single question:
setAttribute aria-expanded false, remove active from the question, then
answer.classList.remove(active) and animateHeight(answer, false). When the
question has no next element sibling, answer is null and the classList
access throws a TypeError after the first two mutations already happened;
the Bool records that throw. -/
def closeOneFAQ (it : FAQItem) : FAQItem × Bool :=
  match it.answer with
  | some a =>
    ({ ariaExpanded := some "false"
       qClasses := classRemove it.qClasses "active"
       answer := some (animateHeight { a with classes := classRemove a.classes "active" } false) },
     false)
  | none =>
    ({ it with
       ariaExpanded := some "false"
       qClasses := classRemove it.qClasses "active" },
     true)

/-- FAQ.closeAllFAQs (src/script.js lines 339-349): forEach over the
question list; an uncaught TypeError stops the iteration, leaving the
remaining questions untouched. -/
def closeAllFAQs : List FAQItem → List FAQItem × Bool
  | [] => ([], false)
  | it :: rest =>
    let r := closeOneFAQ it
    if r.2 then (r.1 :: rest, true)
    else
      let rr := closeAllFAQs rest
      (r.1 :: rr.1, rr.2)

/-- The expansion branch of FAQ.toggleFAQ for the clicked question:
setAttribute aria-expanded true, add active to the question, then
answer.classList.add(active) and animateHeight(answer, true); throws after
the first two mutations when the answer is missing. -/
def expandFAQ (it : FAQItem) : FAQItem × Bool :=
  match it.answer with
  | some a =>
    ({ ariaExpanded := some "true"
       qClasses := classAdd it.qClasses "active"
       answer := some (animateHeight { a with classes := classAdd a.classes "active" } true) },
     false)
  | none =>
    ({ it with
       ariaExpanded := some "true"
       qClasses := classAdd it.qClasses "active" },
     true)

/-- Reading of getAttribute aria-expanded === "true" on a question. -/
def isExpandedAttr (it : FAQItem) : Bool :=
  decide (it.ariaExpanded = some "true")

/-- FAQ.toggleFAQ (src/script.js lines 318-334) on the question at index i
of the question list (click handlers are bound only to members of the list,
so i is always in range; the out-of-range branch below is inert). Reads
isExpanded before mutating anything, calls closeAllFAQs, and re-expands the
clicked question only when it was not expanded. The Bool records an
uncaught TypeError. -/
def toggleFAQ (items : List FAQItem) (i : Nat) : List FAQItem × Bool :=
  let isExpanded : Bool :=
    match items[i]? with
    | some q => isExpandedAttr q
    | none => false
  let c := closeAllFAQs items
  if c.2 then (c.1, true)
  else if isExpanded then (c.1, false)
  else
    match c.1[i]? with
    | some it =>
      let e := expandFAQ it
      (c.1.set i e.1, e.2)
    | none => (c.1, false)

/-- A question/answer pair in the expanded state as the spec describes it:
aria-expanded is "true" and both question and answer carry the active
class. -/
def isOpenFAQ (it : FAQItem) : Bool :=
  decide (it.ariaExpanded = some "true") &&
    decide ("active" ∈ it.qClasses) &&
    (match it.answer with
     | some a => decide ("active" ∈ a.classes)
     | none => false)

/-- The structural adjacency contract of the accordion: every question is
immediately followed by its answer element. -/
def WellFormed (items : List FAQItem) : Prop :=
  ∀ it ∈ items, it.answer.isSome = true

instance : DecidablePred WellFormed := fun items =>
  inferInstanceAs (Decidable (∀ it ∈ items, it.answer.isSome = true))

end FAQ

/-- An element registered with the ScrollAnimations observer: its identity,
whether its classList contains animate-fade-in (the only class this module
touches; classList.add of a present token is a no-op), and the ids of its
descendant grid-item cards in document order (the result of the
querySelectorAll inside addStaggeredAnimation). -/
structure RevealElem where
  eid : Nat
  fadeIn : Bool
  cards : List Nat
deriving Repr, DecidableEq

/-- State of the ScrollAnimations module: the page elements, the set of
element ids the IntersectionObserver currently observes (a set: observe is
idempotent and unobserve removes the element), and the stagger tasks
scheduled by setTimeout but not yet fired, as (delay in ms, card id). -/
structure AnimState where
  elems : List RevealElem
  observed : List Nat
  pending : List (Nat × Nat)
deriving Repr, DecidableEq

namespace ScrollAnimations

/-- entry.target.classList.add(animate-fade-in) for the element with the
given id. -/
def addFadeIn (s : AnimState) (id : Nat) : AnimState :=
  { s with
    elems := s.elems.map
      (fun e => if e.eid == id then { e with fadeIn := true } else e) }

/-- The stagger schedule built by the forEach((item, index) =>
setTimeout(.., index * 100)) loop, starting at index idx. -/
def staggerFrom (idx : Nat) : List Nat → List (Nat × Nat)
  | [] => []
  | c :: cs => (idx * 100, c) :: staggerFrom (idx + 1) cs

/-- ScrollAnimations.addStaggeredAnimation (src/script.js lines 425-433):
queries the grid-item cards of the target and schedules
classList.add(animate-fade-in) on the card at index i after i * 100 ms. -/
def addStaggeredAnimation (s : AnimState) (target : Nat) : AnimState :=
  match s.elems.find? (fun e => e.eid == target) with
  | some elem => { s with pending := s.pending ++ staggerFrom 0 elem.cards }
  | none => s

/-- Processing of one IntersectionObserverEntry (the forEach body of
ScrollAnimations.handleIntersection, lines 407-419): when intersecting, add
animate-fade-in to the target, schedule the staggered card animations, and
unobserve the target; otherwise do nothing. -/
def handleEntry (s : AnimState) (entry : Nat × Bool) : AnimState :=
  if entry.2 then
    let s2 := addStaggeredAnimation (addFadeIn s entry.1) entry.1
    { s2 with observed := s2.observed.filter (fun x => x != entry.1) }
  else s

/-- ScrollAnimations.handleIntersection over a batch of entries. -/
def handleIntersection (s : AnimState) (entries : List (Nat × Bool)) : AnimState :=
  entries.foldl handleEntry s

/-- A scheduled stagger setTimeout callback fires: the card gains
animate-fade-in and the task leaves the pending set. Only tasks that were
actually scheduled can fire. -/
def fireTask (s : AnimState) (task : Nat × Nat) : AnimState :=
  if task ∈ s.pending then
    { addFadeIn s task.2 with pending := s.pending.erase task }
  else s

/-- An event the module reacts to: an IntersectionObserver callback with a
batch of entries, or a stagger timer firing. -/
inductive RevealEvent where
  | intersect (entries : List (Nat × Bool))
  | fire (task : Nat × Nat)
deriving Repr, DecidableEq

/-- One reactive step of the module. -/
def stepEvent (s : AnimState) : RevealEvent → AnimState
  | .intersect entries => handleIntersection s entries
  | .fire task => fireTask s task

/-- A whole sequence of observer callbacks and timer firings. -/
def runEvents (s : AnimState) : List RevealEvent → AnimState
  | [] => s
  | ev :: evs => runEvents (stepEvent s ev) evs

/-- Whether the element with the given id currently carries
animate-fade-in. -/
def revealedB (s : AnimState) (id : Nat) : Bool :=
  match s.elems.find? (fun e => e.eid == id) with
  | some e => e.fadeIn
  | none => false

end ScrollAnimations

/-- State touched by HeaderScroll.handleScroll: the classList of the header
element (init binds the handler only when the header exists) and the
lastScrollTop bookkeeping field. -/
structure HeaderState where
  classes : List String
  lastScrollTop : Nat
deriving Repr, DecidableEq

namespace HeaderScroll

/-- HeaderScroll.handleScroll (src/script.js lines 466-477): adds the
scrolled class when the current vertical offset exceeds 10, removes it
otherwise, and records the offset in lastScrollTop. -/
def handleScroll (s : HeaderState) (scrollTop : Nat) : HeaderState :=
  { classes :=
      if 10 < scrollTop then classAdd s.classes "scrolled"
      else classRemove s.classes "scrolled"
    lastScrollTop := scrollTop }

end HeaderScroll

/-! ## Helper lemmas about the classList model -/

theorem mem_classAdd {cs : List String} {c a : String} :
    a ∈ classAdd cs c ↔ a ∈ cs ∨ a = c := by
  unfold classAdd
  by_cases h : c ∈ cs
  · simp only [if_pos h]
    constructor
    · exact Or.inl
    · rintro (ha | rfl)
      · exact ha
      · exact h
  · simp [if_neg h]

theorem mem_classRemove {cs : List String} {c a : String} :
    a ∈ classRemove cs c ↔ a ∈ cs ∧ a ≠ c := by
  simp [classRemove]

theorem classRemove_eq_self {cs : List String} {c : String} (h : c ∉ cs) :
    classRemove cs c = cs := by
  unfold classRemove
  apply List.filter_eq_self.mpr
  intro a ha
  simp only [ne_eq, decide_eq_true_eq]
  rintro rfl
  exact h ha

theorem classRemove_classRemove (cs : List String) (c : String) :
    classRemove (classRemove cs c) c = classRemove cs c :=
  classRemove_eq_self (by simp [mem_classRemove])

theorem classRemove_append (l1 l2 : List String) (c : String) :
    classRemove (l1 ++ l2) c = classRemove l1 c ++ classRemove l2 c := by
  simp [classRemove]

theorem classAdd_eq_self {cs : List String} {c : String} (h : c ∈ cs) :
    classAdd cs c = cs := by
  simp [classAdd, h]

theorem classToggle_of_mem {cs : List String} {c : String} (h : c ∈ cs) :
    classToggle cs c = classRemove cs c := by
  simp [classToggle, h]

theorem classToggle_of_not_mem {cs : List String} {c : String} (h : c ∉ cs) :
    classToggle cs c = cs ++ [c] := by
  simp [classToggle, h]

/-! ## Theorems -/

/-- Claim C8: after HeaderScroll.handleScroll runs for a vertical scroll
offset, the header carries the scrolled class if and only if the offset is
strictly greater than 10, independent of the previous class list (hence of
previous scroll history). -/
theorem header_scrolled_iff_threshold (s : HeaderState) (scrollTop : Nat) :
    ("scrolled" ∈ (HeaderScroll.handleScroll s scrollTop).classes) ↔ 10 < scrollTop := by
  unfold HeaderScroll.handleScroll
  by_cases h : 10 < scrollTop
  · simp only [if_pos h]
    simpa [mem_classAdd] using h
  · simp only [if_neg h]
    simp [mem_classRemove, h]

/-- Claim C8, boundary instances: offset 11 yields the scrolled class, offset
10 does not, whatever the previous class list was. -/
theorem header_scrolled_iff_threshold_witness :
    (("scrolled" ∈ (HeaderScroll.handleScroll ⟨[], 0⟩ 11).classes) ↔ 10 < 11)
    ∧ (("scrolled" ∈ (HeaderScroll.handleScroll ⟨["scrolled"], 99⟩ 10).classes) ↔ 10 < 10) :=
  ⟨header_scrolled_iff_threshold ⟨[], 0⟩ 11,
   header_scrolled_iff_threshold ⟨["scrolled"], 99⟩ 10⟩

/-- Claim C10: MobileMenu.closeMenu is idempotent, and its result is always
the closed configuration: aria-expanded is the string "false", the container
does not carry the active class, the icon (when present) carries fa-bars and
not fa-times, and body overflow is restored to the empty string. -/
theorem closeMenu_idempotent_closed (s : MenuState) :
    MobileMenu.closeMenu (MobileMenu.closeMenu s) = MobileMenu.closeMenu s
    ∧ (MobileMenu.closeMenu s).ariaExpanded = some "false"
    ∧ "active" ∉ (MobileMenu.closeMenu s).menuClasses
    ∧ (∀ ic2, (MobileMenu.closeMenu s).iconClasses = some ic2 →
        "fa-bars" ∈ ic2 ∧ "fa-times" ∉ ic2)
    ∧ (MobileMenu.closeMenu s).bodyOverflow = "" := by
  refine ⟨?_, rfl, ?_, ?_, rfl⟩
  · unfold MobileMenu.closeMenu
    simp only [MenuState.mk.injEq, Option.map_map, true_and, and_true]
    constructor
    · exact classRemove_classRemove _ _
    · cases hic : s.iconClasses with
      | none => rfl
      | some ic =>
        simp only [Option.map_some', Function.comp_apply, Option.some.injEq]
        have hbars : "fa-bars" ∈ classRemove (classAdd ic "fa-bars") "fa-times" := by
          rw [mem_classRemove]
          exact ⟨mem_classAdd.mpr (Or.inr rfl), by decide⟩
        have htimes : "fa-times" ∉ classRemove (classAdd ic "fa-bars") "fa-times" := by
          rw [mem_classRemove]
          simp
        rw [classAdd_eq_self hbars, classRemove_eq_self htimes]
  · simp [MobileMenu.closeMenu, mem_classRemove]
  · intro ic2 h
    unfold MobileMenu.closeMenu at h
    cases hic : s.iconClasses with
    | none => rw [hic] at h; simp at h
    | some ic =>
      rw [hic] at h
      simp only [Option.map_some', Option.some.injEq] at h
      subst h
      constructor
      · rw [mem_classRemove]
        exact ⟨mem_classAdd.mpr (Or.inr rfl), by decide⟩
      · rw [mem_classRemove]
        simp

/-- Claim C10, instance: closing an open menu twice equals closing it once,
and yields the closed configuration. -/
theorem closeMenu_idempotent_closed_witness :
    MobileMenu.closeMenu (MobileMenu.closeMenu ⟨some "true", ["mobile-menu", "active"], some ["fa-times"], "hidden"⟩)
      = MobileMenu.closeMenu ⟨some "true", ["mobile-menu", "active"], some ["fa-times"], "hidden"⟩
    ∧ (MobileMenu.closeMenu ⟨some "true", ["mobile-menu", "active"], some ["fa-times"], "hidden"⟩).ariaExpanded = some "false"
    ∧ "active" ∉ (MobileMenu.closeMenu ⟨some "true", ["mobile-menu", "active"], some ["fa-times"], "hidden"⟩).menuClasses
    ∧ ("fa-bars" ∈ ["fa-bars"] ∧ "fa-times" ∉ (["fa-bars"] : List String)) := by
  have h := closeMenu_idempotent_closed ⟨some "true", ["mobile-menu", "active"], some ["fa-times"], "hidden"⟩
  exact ⟨h.1, h.2.1, h.2.2.1, h.2.2.2.1 ["fa-bars"] (by decide)⟩

/-- Claim C9, counterexample: a target that already carries tabindex "-1"
before the click does not keep it — after the one-second cleanup the
attribute is gone, so a pre-existing tabindex attribute is not always left
unchanged as the claim states. -/
theorem tabindex_preexisting_removed :
    (SmoothScrolling.updateFocus (some "-1")).afterTimeout = none := rfl

/-- Claim C9 (amended): a pre-existing tabindex with a value other than "-1"
is left unchanged; a target with no tabindex gets a transient "-1" that is
removed by the timeout; and a pre-existing tabindex equal to "-1" is also
removed by the one-second cleanup. -/
theorem updateFocus_tabindex_cases (tab0 : Option String) :
    (tab0 = none → SmoothScrolling.updateFocus tab0 = ⟨some "-1", none⟩)
    ∧ (∀ v, tab0 = some v → v ≠ "-1" →
        SmoothScrolling.updateFocus tab0 = ⟨some v, some v⟩)
    ∧ (tab0 = some "-1" →
        (SmoothScrolling.updateFocus tab0).afterTimeout = none) := by
  refine ⟨?_, ?_, ?_⟩
  · rintro rfl
    rfl
  · rintro v rfl hv
    simp [SmoothScrolling.updateFocus, hv]
  · rintro rfl
    rfl

/-- Claim C9, instance: a target with pre-existing tabindex "0" keeps it at
both observation points. -/
theorem updateFocus_tabindex_cases_witness :
    SmoothScrolling.updateFocus (some "0") = ⟨some "0", some "0"⟩ :=
  (updateFocus_tabindex_cases (some "0")).2.1 "0" rfl (by decide)

/-! ## Throttle lemmas -/

theorem throttleRun_mem_ge (limit : Nat) :
    ∀ (ts : List Nat) (u : Nat) (x : Nat),
      x ∈ throttleRun limit ⟨some u⟩ ts → u ≤ x := by
  intro ts
  induction ts with
  | nil => intro u x hx; simp [throttleRun] at hx
  | cons t ts ih =>
    intro u x hx
    by_cases h : t < u
    · rw [show throttleRun limit ⟨some u⟩ (t :: ts) = throttleRun limit ⟨some u⟩ ts from by
        simp [throttleRun, throttleCall, h]] at hx
      exact ih u x hx
    · rw [show throttleRun limit ⟨some u⟩ (t :: ts)
          = t :: throttleRun limit ⟨some (t + limit)⟩ ts from by
        simp [throttleRun, throttleCall, h]] at hx
      rcases List.mem_cons.mp hx with rfl | hx
      · exact Nat.le_of_not_lt h
      · exact le_trans (le_trans (Nat.le_of_not_lt h) (Nat.le_add_right t limit))
          (ih (t + limit) x hx)

theorem throttleRun_pairwise (limit : Nat) :
    ∀ (ts : List Nat) (s : ThrottleState),
      (throttleRun limit s ts).Pairwise (fun a b => a + limit ≤ b) := by
  intro ts
  induction ts with
  | nil => intro s; simp [throttleRun]
  | cons t ts ih =>
    intro s
    match s with
    | ⟨none⟩ =>
      rw [show throttleRun limit ⟨none⟩ (t :: ts)
          = t :: throttleRun limit ⟨some (t + limit)⟩ ts from by
        simp [throttleRun, throttleCall]]
      exact List.Pairwise.cons (fun x hx => throttleRun_mem_ge limit ts (t + limit) x hx)
        (ih ⟨some (t + limit)⟩)
    | ⟨some u⟩ =>
      by_cases h : t < u
      · rw [show throttleRun limit ⟨some u⟩ (t :: ts) = throttleRun limit ⟨some u⟩ ts from by
          simp [throttleRun, throttleCall, h]]
        exact ih ⟨some u⟩
      · rw [show throttleRun limit ⟨some u⟩ (t :: ts)
            = t :: throttleRun limit ⟨some (t + limit)⟩ ts from by
          simp [throttleRun, throttleCall, h]]
        exact List.Pairwise.cons (fun x hx => throttleRun_mem_ge limit ts (t + limit) x hx)
          (ih ⟨some (t + limit)⟩)

theorem throttleRun_sublist (limit : Nat) :
    ∀ (ts : List Nat) (s : ThrottleState),
      (throttleRun limit s ts).Sublist ts := by
  intro ts
  induction ts with
  | nil => intro s; simp [throttleRun]
  | cons t ts ih =>
    intro s
    match s with
    | ⟨none⟩ =>
      rw [show throttleRun limit ⟨none⟩ (t :: ts)
          = t :: throttleRun limit ⟨some (t + limit)⟩ ts from by
        simp [throttleRun, throttleCall]]
      exact List.Sublist.cons₂ t (ih ⟨some (t + limit)⟩)
    | ⟨some u⟩ =>
      by_cases h : t < u
      · rw [show throttleRun limit ⟨some u⟩ (t :: ts) = throttleRun limit ⟨some u⟩ ts from by
          simp [throttleRun, throttleCall, h]]
        exact List.Sublist.cons t (ih ⟨some u⟩)
      · rw [show throttleRun limit ⟨some u⟩ (t :: ts)
            = t :: throttleRun limit ⟨some (t + limit)⟩ ts from by
          simp [throttleRun, throttleCall, h]]
        exact List.Sublist.cons₂ t (ih ⟨some (t + limit)⟩)

theorem throttleRun_all_dropped (limit : Nat) :
    ∀ (ts : List Nat) (u : Nat), (∀ x ∈ ts, x < u) →
      throttleRun limit ⟨some u⟩ ts = [] := by
  intro ts
  induction ts with
  | nil => intro u _; simp [throttleRun]
  | cons t ts ih =>
    intro u hall
    have ht : t < u := hall t (List.mem_cons_self t ts)
    rw [show throttleRun limit ⟨some u⟩ (t :: ts) = throttleRun limit ⟨some u⟩ ts from by
      simp [throttleRun, throttleCall, ht]]
    exact ih u (fun x hx => hall x (List.mem_cons_of_mem t hx))

/-- Claim C5: for a fresh throttled wrapper with a positive interval, the
first call of a burst always invokes the wrapped function immediately; any
two invocations are at least the interval apart (at most once per
interval); invocations are a subsequence of the calls (dropped calls are
never queued or replayed); and when every later call of the burst falls
inside the first cooldown window, the function is invoked exactly once, at
the first call. -/
theorem throttle_at_most_once_per_interval (limit t : Nat) (ts : List Nat)
    (hpos : 0 < limit) :
    (throttleRun limit ⟨none⟩ (t :: ts)).head? = some t
    ∧ (throttleRun limit ⟨none⟩ (t :: ts)).Pairwise (fun a b => a + limit ≤ b)
    ∧ (throttleRun limit ⟨none⟩ (t :: ts)).Sublist (t :: ts)
    ∧ ((∀ x ∈ ts, x < t + limit) → throttleRun limit ⟨none⟩ (t :: ts) = [t]) := by
  have hrun : throttleRun limit ⟨none⟩ (t :: ts)
      = t :: throttleRun limit ⟨some (t + limit)⟩ ts := by
    simp [throttleRun, throttleCall]
  refine ⟨?_, throttleRun_pairwise limit (t :: ts) ⟨none⟩,
    throttleRun_sublist limit (t :: ts) ⟨none⟩, ?_⟩
  · rw [hrun]; rfl
  · intro hall
    rw [hrun, throttleRun_all_dropped limit ts (t + limit) hall]

/-- Claim C5, scenario instance: throttle(fn, 100) called 5 times within
50 ms invokes fn exactly once, at the first call. -/
theorem throttle_at_most_once_per_interval_witness :
    throttleRun 100 ⟨none⟩ (0 :: [10, 20, 30, 40]) = [0] :=
  (throttle_at_most_once_per_interval 100 0 [10, 20, 30, 40] (by decide)).2.2.2
    (by decide)

/-- Claim C7: starting from the canonical closed menu state, one click on
the trigger sets aria-expanded to "true", adds the active class, and locks
body scroll; a second click restores aria-expanded to "false", the exact
original container class list, the unlocked body, and an icon class list
with exactly the original members (classList is a set; the double toggle
moves fa-bars to the end of the token list but the set of classes is
restored). -/
theorem menu_toggle_twice_reverts (s : MenuState) (ic : List String)
    (h1 : s.ariaExpanded = some "false") (h2 : "active" ∉ s.menuClasses)
    (h3 : s.iconClasses = some ic) (h4 : "fa-bars" ∈ ic)
    (h5 : "fa-times" ∉ ic) (h6 : s.bodyOverflow = "") :
    (MobileMenu.toggleMenu s).ariaExpanded = some "true"
    ∧ "active" ∈ (MobileMenu.toggleMenu s).menuClasses
    ∧ (MobileMenu.toggleMenu s).bodyOverflow = "hidden"
    ∧ (MobileMenu.toggleMenu (MobileMenu.toggleMenu s)).ariaExpanded = some "false"
    ∧ (MobileMenu.toggleMenu (MobileMenu.toggleMenu s)).menuClasses = s.menuClasses
    ∧ (MobileMenu.toggleMenu (MobileMenu.toggleMenu s)).bodyOverflow = ""
    ∧ ∃ ic2, (MobileMenu.toggleMenu (MobileMenu.toggleMenu s)).iconClasses = some ic2
        ∧ ∀ c, (c ∈ ic2 ↔ c ∈ ic) := by
  have hne : s.ariaExpanded ≠ some "true" := by rw [h1]; decide
  have hA_times : "fa-times" ∉ classRemove ic "fa-bars" :=
    fun hmem => h5 (mem_classRemove.mp hmem).1
  have hs1 : MobileMenu.toggleMenu s =
      { ariaExpanded := some "true"
        menuClasses := s.menuClasses ++ ["active"]
        iconClasses := some (classRemove ic "fa-bars" ++ ["fa-times"])
        bodyOverflow := "hidden" } := by
    unfold MobileMenu.toggleMenu
    rw [if_neg hne, h3, classToggle_of_not_mem h2]
    simp only [Option.map_some']
    rw [classToggle_of_mem h4, classToggle_of_not_mem hA_times]
  have hbars_ne : ("fa-bars" : String) ≠ "fa-times" := by decide
  have hb1 : "fa-bars" ∉ classRemove ic "fa-bars" ++ ["fa-times"] := by
    intro hmem
    rcases List.mem_append.mp hmem with hmem | hmem
    · exact (mem_classRemove.mp hmem).2 rfl
    · exact hbars_ne (List.mem_singleton.mp hmem)
  have ht1 : "fa-times" ∈ classRemove ic "fa-bars" ++ ["fa-times"] ++ ["fa-bars"] := by
    simp
  have hactive : "active" ∈ s.menuClasses ++ ["active"] := by simp
  have hs2 : MobileMenu.toggleMenu (MobileMenu.toggleMenu s) =
      { ariaExpanded := some "false"
        menuClasses := s.menuClasses
        iconClasses := some (classRemove ic "fa-bars" ++ ["fa-bars"])
        bodyOverflow := "" } := by
    rw [hs1]
    unfold MobileMenu.toggleMenu
    rw [if_pos rfl]
    simp only [Option.map_some']
    rw [classToggle_of_mem hactive, classToggle_of_not_mem hb1, classToggle_of_mem ht1,
      classRemove_append, classRemove_append, classRemove_append,
      classRemove_eq_self h2, classRemove_eq_self hA_times,
      show classRemove ["active"] "active" = [] from by decide,
      show classRemove ["fa-times"] "fa-times" = [] from by decide,
      show classRemove ["fa-bars"] "fa-times" = ["fa-bars"] from by decide]
    simp
  rw [hs2, hs1]
  refine ⟨rfl, by simp, rfl, rfl, rfl, rfl,
    ⟨classRemove ic "fa-bars" ++ ["fa-bars"], rfl, ?_⟩⟩
  intro c
  constructor
  · intro hc
    rcases List.mem_append.mp hc with hc | hc
    · exact (mem_classRemove.mp hc).1
    · rw [List.mem_singleton.mp hc]
      exact h4
  · intro hc
    by_cases hcb : c = "fa-bars"
    · subst hcb
      simp
    · exact List.mem_append.mpr (Or.inl (mem_classRemove.mpr ⟨hc, hcb⟩))

/-- Claim C7, instance: from a concrete closed state the first click opens
the menu (aria true, active class, scroll locked) and the second restores
the closed values. -/
theorem menu_toggle_twice_reverts_witness :
    (MobileMenu.toggleMenu ⟨some "false", ["mobile-menu"], some ["fa-bars"], ""⟩).ariaExpanded = some "true"
    ∧ "active" ∈ (MobileMenu.toggleMenu ⟨some "false", ["mobile-menu"], some ["fa-bars"], ""⟩).menuClasses
    ∧ (MobileMenu.toggleMenu ⟨some "false", ["mobile-menu"], some ["fa-bars"], ""⟩).bodyOverflow = "hidden"
    ∧ (MobileMenu.toggleMenu (MobileMenu.toggleMenu ⟨some "false", ["mobile-menu"], some ["fa-bars"], ""⟩)).ariaExpanded = some "false"
    ∧ (MobileMenu.toggleMenu (MobileMenu.toggleMenu ⟨some "false", ["mobile-menu"], some ["fa-bars"], ""⟩)).menuClasses = ["mobile-menu"]
    ∧ (MobileMenu.toggleMenu (MobileMenu.toggleMenu ⟨some "false", ["mobile-menu"], some ["fa-bars"], ""⟩)).bodyOverflow = ""
    ∧ ∃ ic2, (MobileMenu.toggleMenu (MobileMenu.toggleMenu ⟨some "false", ["mobile-menu"], some ["fa-bars"], ""⟩)).iconClasses = some ic2
        ∧ ∀ c, (c ∈ ic2 ↔ c ∈ (["fa-bars"] : List String)) :=
  menu_toggle_twice_reverts ⟨some "false", ["mobile-menu"], some ["fa-bars"], ""⟩
    ["fa-bars"] rfl (by decide) rfl (by decide) (by decide) rfl

/-- Claim C3, counterexample: clicking an anchor with the bare fragment "#"
(which resolves to no element) is not a silent no-op — document.querySelector
is called with the invalid selector "#" and throws a SyntaxError
DOMException, so an error is raised, contradicting the claim; default
navigation is still suppressed because preventDefault ran first. -/
theorem anchor_hash_click_throws :
    (SmoothScrolling.handleAnchorClick ⟨[⟨"section2", 1000⟩], some 80, true⟩ "#").threw = true
    ∧ (SmoothScrolling.handleAnchorClick ⟨[⟨"section2", 1000⟩], some 80, true⟩ "#").prevented = true := by
  constructor <;> rfl

/-- Claim C3 (amended): for every click whose fragment is a valid id
selector that resolves to no element, the handler suppresses default
navigation and then does nothing: no throw, no menu close, no scroll, no
focus change, no history push. The bare fragment "#" is excluded: there
querySelector throws (default navigation still suppressed, and no scroll,
DOM or history change happens either). -/
theorem anchor_unresolved_silent_noop (doc : PageDoc) (href : String)
    (hv : fragmentSelectorValid href = true)
    (hnone : doc.elements.find? (fun e => decide (e.eid = href.drop 1)) = none) :
    SmoothScrolling.handleAnchorClick doc href =
      { prevented := true, threw := false, menuClosed := false,
        scrolledTo := none, focusedId := none, pushedHash := none } := by
  unfold SmoothScrolling.handleAnchorClick querySelectorId
  rw [if_pos hv, hnone]

/-- Claim C3, instance: a click on an anchor whose valid fragment matches no
element is a complete no-op apart from preventDefault. -/
theorem anchor_unresolved_silent_noop_witness :
    SmoothScrolling.handleAnchorClick ⟨[⟨"section2", 1000⟩], some 80, true⟩ "#missing" =
      { prevented := true, threw := false, menuClosed := false,
        scrolledTo := none, focusedId := none, pushedHash := none } :=
  anchor_unresolved_silent_noop ⟨[⟨"section2", 1000⟩], some 80, true⟩ "#missing"
    (by decide) (by decide)

/-- Claim C4: whenever the fragment resolves to a target element (and the
mobile-menu elements exist, so MobileMenu.closeMenu does not throw first),
the offset passed to window.scrollTo is exactly the target document offset
minus the current header height minus 20, where the header height is 0 when
no .header element exists. -/
theorem anchor_scroll_offset (doc : PageDoc) (href : String) (target : PageElement)
    (hres : querySelectorId doc href = .ok (some target))
    (hmenu : doc.menuPresent = true) :
    (SmoothScrolling.handleAnchorClick doc href).scrolledTo
      = some (target.offsetTop - (doc.headerHeight.getD 0 : Int) - 20)
    ∧ (doc.headerHeight = none →
        (SmoothScrolling.handleAnchorClick doc href).scrolledTo
          = some (target.offsetTop - 20)) := by
  have hmain : (SmoothScrolling.handleAnchorClick doc href).scrolledTo
      = some (target.offsetTop - (doc.headerHeight.getD 0 : Int) - 20) := by
    unfold SmoothScrolling.handleAnchorClick
    rw [hres]
    simp [hmenu]
  refine ⟨hmain, ?_⟩
  intro hnone
  rw [hmain, hnone]
  norm_num

/-- Claim C4, scenario instance: target 1000 px down, header 80 px high:
the scroll destination is 1000 - 80 - 20 = 900. -/
theorem anchor_scroll_offset_witness :
    (SmoothScrolling.handleAnchorClick ⟨[⟨"section2", 1000⟩], some 80, true⟩ "#section2").scrolledTo
      = some 900 := by
  have h := anchor_scroll_offset ⟨[⟨"section2", 1000⟩], some 80, true⟩ "#section2"
    ⟨"section2", 1000⟩ rfl rfl
  rw [h.1]
  norm_num

/-- Claim C2, counterexample: two operations do throw when an expected DOM
element is absent, instead of degrading to a no-op. (1) With the mobile-menu
trigger absent, a click on an anchor whose fragment resolves throws a
TypeError inside MobileMenu.closeMenu. (2) FAQ.toggleFAQ on a question with
no adjacent answer element throws a TypeError dereferencing
nextElementSibling. -/
theorem missing_element_throws :
    (SmoothScrolling.handleAnchorClick ⟨[⟨"news", 0⟩], none, false⟩ "#news").threw = true
    ∧ (FAQ.toggleFAQ [⟨some "false", [], none⟩] 0).2 = true := by
  constructor <;> rfl

/-! ## FAQ lemmas -/

theorem closeOneFAQ_snd (it : FAQItem) (h : it.answer.isSome = true) :
    (FAQ.closeOneFAQ it).2 = false := by
  obtain ⟨a, ha⟩ := Option.isSome_iff_exists.mp h
  simp [FAQ.closeOneFAQ, ha]

theorem closeOneFAQ_answer_isSome (it : FAQItem) :
    ((FAQ.closeOneFAQ it).1).answer.isSome = it.answer.isSome := by
  cases ha : it.answer <;> simp [FAQ.closeOneFAQ, ha]

theorem isOpenFAQ_closeOneFAQ (it : FAQItem) :
    FAQ.isOpenFAQ (FAQ.closeOneFAQ it).1 = false := by
  cases ha : it.answer <;> simp [FAQ.closeOneFAQ, FAQ.isOpenFAQ, ha]

theorem expandFAQ_snd (it : FAQItem) (h : it.answer.isSome = true) :
    (FAQ.expandFAQ it).2 = false := by
  obtain ⟨a, ha⟩ := Option.isSome_iff_exists.mp h
  simp [FAQ.expandFAQ, ha]

theorem expandFAQ_answer_isSome (it : FAQItem) :
    ((FAQ.expandFAQ it).1).answer.isSome = it.answer.isSome := by
  cases ha : it.answer <;> simp [FAQ.expandFAQ, ha]

theorem closeAllFAQs_wf :
    ∀ (items : List FAQItem), FAQ.WellFormed items →
      FAQ.closeAllFAQs items
        = (items.map (fun it => (FAQ.closeOneFAQ it).1), false) := by
  intro items
  induction items with
  | nil => intro _; rfl
  | cons it rest ih =>
    intro hwf
    have hhead : it.answer.isSome = true := hwf it (List.mem_cons_self it rest)
    have htail : FAQ.WellFormed rest :=
      fun x hx => hwf x (List.mem_cons_of_mem it hx)
    simp [FAQ.closeAllFAQs, closeOneFAQ_snd it hhead, ih htail]

theorem countP_closed_zero (items : List FAQItem) :
    (items.map (fun it => (FAQ.closeOneFAQ it).1)).countP FAQ.isOpenFAQ = 0 := by
  rw [List.countP_eq_zero]
  intro a ha
  obtain ⟨it, _, rfl⟩ := List.mem_map.mp ha
  simp [isOpenFAQ_closeOneFAQ]

theorem countP_set_le {α : Type} (p : α → Bool) :
    ∀ (l : List α) (i : Nat) (a : α), l.countP p = 0 → (l.set i a).countP p ≤ 1 := by
  intro l
  induction l with
  | nil => intro i a _; simp
  | cons x xs ih =>
    intro i a h0
    rw [List.countP_cons] at h0
    have hxs : xs.countP p = 0 := by omega
    cases i with
    | zero =>
      rw [List.set_cons_zero, List.countP_cons, hxs]
      by_cases hp : p a <;> simp [hp]
    | succ n =>
      rw [List.set_cons_succ, List.countP_cons]
      have hx : (if p x = true then 1 else 0) = 0 := by omega
      have hrec := ih n a hxs
      omega

theorem wf_closed (items : List FAQItem) (hwf : FAQ.WellFormed items) :
    FAQ.WellFormed (items.map (fun it => (FAQ.closeOneFAQ it).1)) := by
  intro x hx
  obtain ⟨it, hit, rfl⟩ := List.mem_map.mp hx
  rw [closeOneFAQ_answer_isSome]
  exact hwf it hit

theorem toggleFAQ_eq_expanded (items : List FAQItem) (i : Nat) (q : FAQItem)
    (hwf : FAQ.WellFormed items) (hq : items[i]? = some q)
    (hexp : FAQ.isExpandedAttr q = true) :
    FAQ.toggleFAQ items i
      = (items.map (fun it => (FAQ.closeOneFAQ it).1), false) := by
  unfold FAQ.toggleFAQ
  rw [closeAllFAQs_wf items hwf]
  simp [hq, hexp]

theorem toggleFAQ_eq_collapsed (items : List FAQItem) (i : Nat) (q : FAQItem)
    (hwf : FAQ.WellFormed items) (hq : items[i]? = some q)
    (hexp : FAQ.isExpandedAttr q = false) :
    FAQ.toggleFAQ items i
      = ((items.map (fun it => (FAQ.closeOneFAQ it).1)).set i
          (FAQ.expandFAQ ((FAQ.closeOneFAQ q).1)).1, false) := by
  unfold FAQ.toggleFAQ
  rw [closeAllFAQs_wf items hwf]
  have hq2 : (items.map (fun it => (FAQ.closeOneFAQ it).1))[i]?
      = some ((FAQ.closeOneFAQ q).1) := by
    rw [List.getElem?_map, hq]
    rfl
  have hsnd : (FAQ.expandFAQ ((FAQ.closeOneFAQ q).1)).2 = false := by
    apply expandFAQ_snd
    rw [closeOneFAQ_answer_isSome]
    exact hwf q (List.getElem?_mem hq)
  simp [hq, hexp, hq2, hsnd]

theorem toggleFAQ_eq_outOfRange (items : List FAQItem) (i : Nat)
    (hwf : FAQ.WellFormed items) (hi : items[i]? = none) :
    FAQ.toggleFAQ items i
      = (items.map (fun it => (FAQ.closeOneFAQ it).1), false) := by
  unfold FAQ.toggleFAQ
  rw [closeAllFAQs_wf items hwf]
  have hq2 : (items.map (fun it => (FAQ.closeOneFAQ it).1))[i]? = none := by
    rw [List.getElem?_map, hi]
    rfl
  simp [hi, hq2]

theorem toggleFAQ_noThrow (items : List FAQItem) (i : Nat)
    (hwf : FAQ.WellFormed items) :
    (FAQ.toggleFAQ items i).2 = false := by
  cases hq : items[i]? with
  | none => rw [toggleFAQ_eq_outOfRange items i hwf hq]
  | some q =>
    cases hexp : FAQ.isExpandedAttr q with
    | true => rw [toggleFAQ_eq_expanded items i q hwf hq hexp]
    | false => rw [toggleFAQ_eq_collapsed items i q hwf hq hexp]

theorem toggleFAQ_count (items : List FAQItem) (i : Nat)
    (hwf : FAQ.WellFormed items) :
    (FAQ.toggleFAQ items i).1.countP FAQ.isOpenFAQ ≤ 1 := by
  cases hq : items[i]? with
  | none =>
    rw [toggleFAQ_eq_outOfRange items i hwf hq]
    simp [countP_closed_zero items]
  | some q =>
    cases hexp : FAQ.isExpandedAttr q with
    | true =>
      rw [toggleFAQ_eq_expanded items i q hwf hq hexp]
      simp [countP_closed_zero items]
    | false =>
      rw [toggleFAQ_eq_collapsed items i q hwf hq hexp]
      exact countP_set_le FAQ.isOpenFAQ _ i _ (countP_closed_zero items)

theorem toggleFAQ_wf (items : List FAQItem) (i : Nat)
    (hwf : FAQ.WellFormed items) :
    FAQ.WellFormed (FAQ.toggleFAQ items i).1 := by
  cases hq : items[i]? with
  | none =>
    rw [toggleFAQ_eq_outOfRange items i hwf hq]
    exact wf_closed items hwf
  | some q =>
    cases hexp : FAQ.isExpandedAttr q with
    | true =>
      rw [toggleFAQ_eq_expanded items i q hwf hq hexp]
      exact wf_closed items hwf
    | false =>
      rw [toggleFAQ_eq_collapsed items i q hwf hq hexp]
      intro x hx
      rcases List.mem_or_eq_of_mem_set hx with hx2 | rfl
      · exact wf_closed items hwf x hx2
      · rw [expandFAQ_answer_isSome, closeOneFAQ_answer_isSome]
        exact hwf q (List.getElem?_mem hq)

theorem toggleFAQ_closes_expanded (items : List FAQItem) (i : Nat) (q : FAQItem)
    (hwf : FAQ.WellFormed items) (hq : items[i]? = some q)
    (hexp : FAQ.isExpandedAttr q = true) :
    ∀ it2 ∈ (FAQ.toggleFAQ items i).1, FAQ.isOpenFAQ it2 = false := by
  rw [toggleFAQ_eq_expanded items i q hwf hq hexp]
  intro it2 hit2
  obtain ⟨it, _, rfl⟩ := List.mem_map.mp hit2
  exact isOpenFAQ_closeOneFAQ it

theorem faqClicks_count (clicks : List Nat) :
    ∀ items : List FAQItem, FAQ.WellFormed items → clicks ≠ [] →
      ((clicks.foldl (fun st j => (FAQ.toggleFAQ st j).1) items).countP
        FAQ.isOpenFAQ) ≤ 1 := by
  induction clicks with
  | nil => intro items _ hne; exact absurd rfl hne
  | cons c cs ih =>
    intro items hwf _
    rw [List.foldl_cons]
    cases cs with
    | nil => simpa using toggleFAQ_count items c hwf
    | cons d ds =>
      exact ih (FAQ.toggleFAQ items c).1 (toggleFAQ_wf items c hwf) (by simp)

/-- Claim C1: over a well-formed accordion (every question has an adjacent
answer), any nonempty sequence of clicks (or Enter/Space activations, which
invoke the same FAQ.toggleFAQ) leaves at most one question/answer pair in
the expanded state; and clicking a question that is already expanded
(aria-expanded reads "true") collapses every pair, leaving no item open. -/
theorem faq_single_open (items : List FAQItem) (clicks : List Nat) (i : Nat)
    (q : FAQItem) (hwf : FAQ.WellFormed items) :
    (clicks ≠ [] →
      ((clicks.foldl (fun st j => (FAQ.toggleFAQ st j).1) items).countP
        FAQ.isOpenFAQ) ≤ 1)
    ∧ (items[i]? = some q → FAQ.isExpandedAttr q = true →
        ∀ it2 ∈ (FAQ.toggleFAQ items i).1, FAQ.isOpenFAQ it2 = false) :=
  ⟨fun hne => faqClicks_count clicks items hwf hne,
   fun hq hexp => toggleFAQ_closes_expanded items i q hwf hq hexp⟩

/-- Claim C1, instance: a 2-item FAQ with the first item expanded: clicking
the second leaves exactly one pair open; clicking the first (already
expanded) collapses everything. -/
theorem faq_single_open_witness :
    ((([1] : List Nat).foldl (fun st j => (FAQ.toggleFAQ st j).1)
        [⟨some "true", ["active"], some ⟨["active"], 10, none⟩⟩,
         ⟨some "false", [], some ⟨[], 20, none⟩⟩]).countP FAQ.isOpenFAQ ≤ 1)
    ∧ (∀ it2 ∈ (FAQ.toggleFAQ
        [⟨some "true", ["active"], some ⟨["active"], 10, none⟩⟩,
         ⟨some "false", [], some ⟨[], 20, none⟩⟩] 0).1,
        FAQ.isOpenFAQ it2 = false) := by
  have h := faq_single_open
    [⟨some "true", ["active"], some ⟨["active"], 10, none⟩⟩,
     ⟨some "false", [], some ⟨[], 20, none⟩⟩] [1] 0
    ⟨some "true", ["active"], some ⟨["active"], 10, none⟩⟩ (by decide)
  exact ⟨h.1 (by decide), h.2 rfl rfl⟩

/-- Claim C2 (amended): the init-time guards make a controller inert when
its elements are missing at initialization, and with the mobile-menu
elements present and a structurally well-formed FAQ no operation throws:
an anchor click never throws whatever the header situation (absent header
counts as height 0) and whether or not the fragment resolves, and
FAQ.toggleFAQ never throws. But the original claim is false in general:
see the counterexample for the two operations that do throw on a missing
element. -/
theorem missing_element_guarded (doc : PageDoc) (href : String)
    (items : List FAQItem) (i : Nat)
    (hmenu : doc.menuPresent = true)
    (hv : fragmentSelectorValid href = true)
    (hwf : FAQ.WellFormed items) :
    (SmoothScrolling.handleAnchorClick doc href).threw = false
    ∧ (FAQ.toggleFAQ items i).2 = false := by
  constructor
  · unfold SmoothScrolling.handleAnchorClick querySelectorId
    rw [if_pos hv]
    cases doc.elements.find? (fun e => decide (e.eid = href.drop 1)) with
    | none => rfl
    | some target => simp [hmenu]
  · exact toggleFAQ_noThrow items i hwf

/-- Claim C2, instance: with menu elements present and a well-formed FAQ,
neither an anchor click (header absent, so height 0) nor an FAQ toggle
throws. -/
theorem missing_element_guarded_witness :
    (SmoothScrolling.handleAnchorClick ⟨[⟨"news", 5⟩], none, true⟩ "#news").threw = false
    ∧ (FAQ.toggleFAQ [⟨some "false", [], some ⟨[], 10, none⟩⟩] 0).2 = false :=
  missing_element_guarded ⟨[⟨"news", 5⟩], none, true⟩ "#news"
    [⟨some "false", [], some ⟨[], 10, none⟩⟩] 0 rfl (by decide) (by decide)

/-! ## ScrollAnimations lemmas -/

theorem find_eid_map (g : RevealElem → RevealElem)
    (hg : ∀ e, (g e).eid = e.eid) (id : Nat) :
    ∀ l : List RevealElem,
      (l.map g).find? (fun e => e.eid == id)
        = (l.find? (fun e => e.eid == id)).map g := by
  intro l
  induction l with
  | nil => rfl
  | cons e es ih =>
    by_cases he : (e.eid == id) = true
    · rw [List.map_cons, List.find?_cons_of_pos, List.find?_cons_of_pos]
      · rfl
      · exact he
      · rw [hg e]
        exact he
    · rw [List.map_cons, List.find?_cons_of_neg, List.find?_cons_of_neg, ih]
      · exact he
      · rw [hg e]
        exact he

theorem revealedB_addFadeIn (s : AnimState) (id id2 : Nat)
    (h : ScrollAnimations.revealedB s id = true) :
    ScrollAnimations.revealedB (ScrollAnimations.addFadeIn s id2) id = true := by
  unfold ScrollAnimations.revealedB ScrollAnimations.addFadeIn at *
  rw [find_eid_map]
  · cases hf : s.elems.find? (fun e => e.eid == id) with
    | none => rw [hf] at h; exact absurd h (by simp)
    | some e =>
      rw [hf] at h
      have hfade : e.fadeIn = true := h
      simp only [Option.map_some']
      by_cases hc : (e.eid == id2) = true <;> simp [hc, hfade]
  · intro e
    by_cases hc : (e.eid == id2) = true <;> simp [hc]

theorem revealedB_pending_irrelevant (s : AnimState) (p : List (Nat × Nat)) (id : Nat) :
    ScrollAnimations.revealedB { s with pending := p } id
      = ScrollAnimations.revealedB s id := rfl

theorem revealedB_addStaggered (s : AnimState) (target id : Nat) :
    ScrollAnimations.revealedB (ScrollAnimations.addStaggeredAnimation s target) id
      = ScrollAnimations.revealedB s id := by
  unfold ScrollAnimations.addStaggeredAnimation
  cases s.elems.find? (fun e => e.eid == target) <;> rfl

theorem revealedB_handleEntry (s : AnimState) (entry : Nat × Bool) (id : Nat)
    (h : ScrollAnimations.revealedB s id = true) :
    ScrollAnimations.revealedB (ScrollAnimations.handleEntry s entry) id = true := by
  unfold ScrollAnimations.handleEntry
  by_cases hi : entry.2 = true
  · simp only [hi, if_true]
    have h1 := revealedB_addFadeIn s id entry.1 h
    rw [show ScrollAnimations.revealedB
        { ScrollAnimations.addStaggeredAnimation (ScrollAnimations.addFadeIn s entry.1) entry.1 with
          observed := (ScrollAnimations.addStaggeredAnimation (ScrollAnimations.addFadeIn s entry.1) entry.1).observed.filter
            (fun x => x != entry.1) } id
        = ScrollAnimations.revealedB
            (ScrollAnimations.addStaggeredAnimation (ScrollAnimations.addFadeIn s entry.1) entry.1) id from rfl]
    rw [revealedB_addStaggered]
    exact h1
  · simp only [hi, if_false]
    exact h

theorem revealedB_handleIntersection (entries : List (Nat × Bool)) :
    ∀ (s : AnimState) (id : Nat),
      ScrollAnimations.revealedB s id = true →
      ScrollAnimations.revealedB (ScrollAnimations.handleIntersection s entries) id = true := by
  induction entries with
  | nil => intro s id h; exact h
  | cons e es ih =>
    intro s id h
    exact ih (ScrollAnimations.handleEntry s e) id (revealedB_handleEntry s e id h)

theorem revealedB_fireTask (s : AnimState) (task : Nat × Nat) (id : Nat)
    (h : ScrollAnimations.revealedB s id = true) :
    ScrollAnimations.revealedB (ScrollAnimations.fireTask s task) id = true := by
  unfold ScrollAnimations.fireTask
  by_cases hmem : task ∈ s.pending
  · rw [if_pos hmem]
    exact revealedB_addFadeIn s id task.2 h
  · rw [if_neg hmem]
    exact h

theorem revealedB_stepEvent (s : AnimState) (ev : ScrollAnimations.RevealEvent) (id : Nat)
    (h : ScrollAnimations.revealedB s id = true) :
    ScrollAnimations.revealedB (ScrollAnimations.stepEvent s ev) id = true := by
  cases ev with
  | intersect entries => exact revealedB_handleIntersection entries s id h
  | fire task => exact revealedB_fireTask s task id h

theorem revealedB_runEvents (evs : List ScrollAnimations.RevealEvent) :
    ∀ (s : AnimState) (id : Nat),
      ScrollAnimations.revealedB s id = true →
      ScrollAnimations.revealedB (ScrollAnimations.runEvents s evs) id = true := by
  induction evs with
  | nil => intro s id h; exact h
  | cons ev evs ih =>
    intro s id h
    exact ih (ScrollAnimations.stepEvent s ev) id (revealedB_stepEvent s ev id h)

theorem staggerFrom_getElem :
    ∀ (cards : List Nat) (k j : Nat) (c : Nat), cards[j]? = some c →
      (ScrollAnimations.staggerFrom k cards)[j]? = some ((k + j) * 100, c) := by
  intro cards
  induction cards with
  | nil => intro k j c h; simp at h
  | cons x xs ih =>
    intro k j c h
    cases j with
    | zero =>
      simp only [List.getElem?_cons_zero, Option.some.injEq] at h
      subst h
      simp [ScrollAnimations.staggerFrom]
    | succ n =>
      simp only [List.getElem?_cons_succ] at h
      rw [show ScrollAnimations.staggerFrom k (x :: xs)
          = (k * 100, x) :: ScrollAnimations.staggerFrom (k + 1) xs from rfl]
      rw [List.getElem?_cons_succ]
      rw [ih (k + 1) n c h]
      congr 2
      omega

theorem handleEntry_found (s : AnimState) (target : Nat) (elem : RevealElem)
    (hfind : s.elems.find? (fun e => e.eid == target) = some elem) :
    ScrollAnimations.revealedB (ScrollAnimations.handleEntry s (target, true)) target = true
    ∧ target ∉ (ScrollAnimations.handleEntry s (target, true)).observed
    ∧ (ScrollAnimations.handleEntry s (target, true)).pending
        = s.pending ++ ScrollAnimations.staggerFrom 0 elem.cards := by
  have hg : ∀ e : RevealElem,
      ((fun e => if e.eid == target then { e with fadeIn := true } else e) e).eid = e.eid := by
    intro e
    by_cases hc : (e.eid == target) = true <;> simp [hc]
  have hfind2 : (ScrollAnimations.addFadeIn s target).elems.find? (fun e => e.eid == target)
      = some { elem with fadeIn := true } := by
    unfold ScrollAnimations.addFadeIn
    rw [find_eid_map _ hg, hfind]
    have helem := List.find?_some hfind
    have helem2 : elem.eid = target := by simpa using helem
    simp [helem2]
  refine ⟨?_, ?_, ?_⟩
  · unfold ScrollAnimations.handleEntry
    simp only [if_true]
    rw [show ∀ s2 : AnimState, ScrollAnimations.revealedB
        { s2 with observed := s2.observed.filter (fun x => x != target) } target
        = ScrollAnimations.revealedB s2 target from fun s2 => rfl]
    rw [revealedB_addStaggered]
    unfold ScrollAnimations.revealedB
    rw [hfind2]
  · unfold ScrollAnimations.handleEntry
    simp only [if_true]
    intro hmem
    simp only [List.mem_filter] at hmem
    exact absurd hmem.2 (by simp)
  · unfold ScrollAnimations.handleEntry
    simp only [if_true]
    show (ScrollAnimations.addStaggeredAnimation (ScrollAnimations.addFadeIn s target) target).pending
        = s.pending ++ ScrollAnimations.staggerFrom 0 elem.cards
    unfold ScrollAnimations.addStaggeredAnimation
    rw [hfind2]
    rfl

theorem fireTask_reveals (s : AnimState) (task : Nat × Nat) (ce : RevealElem)
    (hmem : task ∈ s.pending)
    (hfind : s.elems.find? (fun e => e.eid == task.2) = some ce) :
    ScrollAnimations.revealedB (ScrollAnimations.fireTask s task) task.2 = true := by
  unfold ScrollAnimations.fireTask
  rw [if_pos hmem]
  have hg : ∀ e : RevealElem,
      ((fun e => if e.eid == task.2 then { e with fadeIn := true } else e) e).eid = e.eid := by
    intro e
    by_cases hc : (e.eid == task.2) = true <;> simp [hc]
  have hfind2 : (ScrollAnimations.addFadeIn s task.2).elems.find? (fun e => e.eid == task.2)
      = some { ce with fadeIn := true } := by
    unfold ScrollAnimations.addFadeIn
    rw [find_eid_map _ hg, hfind]
    have hce := List.find?_some hfind
    have hce2 : ce.eid = task.2 := by simpa using hce
    simp [hce2]
  show ScrollAnimations.revealedB
      { ScrollAnimations.addFadeIn s task.2 with pending := s.pending.erase task } task.2 = true
  unfold ScrollAnimations.revealedB
  rw [show ({ ScrollAnimations.addFadeIn s task.2 with
      pending := s.pending.erase task } : AnimState).elems
      = (ScrollAnimations.addFadeIn s task.2).elems from rfl]
  rw [hfind2]

/-- Claim C6: an element registered with the scroll-reveal observer, once
revealed (it carries animate-fade-in), stays revealed through any further
sequence of observer callbacks and stagger-timer firings (at most one
transition from unrevealed to revealed, never reversed); processing an
intersecting entry reveals its target, unobserves it, and schedules one
stagger task per contained grid-item card where the card at index j carries
the delay j * 100 ms (index 0 immediate); and a scheduled stagger task,
when it fires, gives its card the revealed class. -/
theorem reveal_one_shot_staggered (s : AnimState)
    (evs : List ScrollAnimations.RevealEvent) (id target : Nat)
    (elem : RevealElem) (task : Nat × Nat) (ce : RevealElem) :
    (ScrollAnimations.revealedB s id = true →
      ScrollAnimations.revealedB (ScrollAnimations.runEvents s evs) id = true)
    ∧ (s.elems.find? (fun e => e.eid == target) = some elem →
        ScrollAnimations.revealedB (ScrollAnimations.handleEntry s (target, true)) target = true
        ∧ target ∉ (ScrollAnimations.handleEntry s (target, true)).observed
        ∧ (ScrollAnimations.handleEntry s (target, true)).pending
            = s.pending ++ ScrollAnimations.staggerFrom 0 elem.cards
        ∧ (∀ j c, elem.cards[j]? = some c →
            (ScrollAnimations.staggerFrom 0 elem.cards)[j]? = some (j * 100, c)))
    ∧ (task ∈ s.pending →
        s.elems.find? (fun e => e.eid == task.2) = some ce →
        ScrollAnimations.revealedB (ScrollAnimations.fireTask s task) task.2 = true) := by
  refine ⟨fun h => revealedB_runEvents evs s id h, fun hfind => ?_,
    fun hmem hfind => fireTask_reveals s task ce hmem hfind⟩
  obtain ⟨h1, h2, h3⟩ := handleEntry_found s target elem hfind
  refine ⟨h1, h2, h3, fun j c hj => ?_⟩
  have := staggerFrom_getElem elem.cards 0 j c hj
  simpa using this

/-- Claim C6, instance: element 2 (with cards 3 and 4) intersects once and a
stagger task fires: element 1 (already revealed) stays revealed through the
whole event sequence; element 2 is revealed, unobserved and its cards are
scheduled at delays 0 and 100 ms; the pending task (0, 3) reveals card 3
when it fires. -/
theorem reveal_one_shot_staggered_witness :
    (ScrollAnimations.revealedB
        (ScrollAnimations.runEvents
          ⟨[⟨1, true, []⟩, ⟨2, false, [3, 4]⟩, ⟨3, false, []⟩, ⟨4, false, []⟩],
           [2, 3, 4], [(0, 3)]⟩
          [ScrollAnimations.RevealEvent.intersect [(2, true)],
           ScrollAnimations.RevealEvent.fire (0, 3)]) 1 = true)
    ∧ (ScrollAnimations.revealedB
        (ScrollAnimations.handleEntry
          ⟨[⟨1, true, []⟩, ⟨2, false, [3, 4]⟩, ⟨3, false, []⟩, ⟨4, false, []⟩],
           [2, 3, 4], [(0, 3)]⟩ (2, true)) 2 = true)
    ∧ (2 ∉ (ScrollAnimations.handleEntry
          ⟨[⟨1, true, []⟩, ⟨2, false, [3, 4]⟩, ⟨3, false, []⟩, ⟨4, false, []⟩],
           [2, 3, 4], [(0, 3)]⟩ (2, true)).observed)
    ∧ ((ScrollAnimations.handleEntry
          ⟨[⟨1, true, []⟩, ⟨2, false, [3, 4]⟩, ⟨3, false, []⟩, ⟨4, false, []⟩],
           [2, 3, 4], [(0, 3)]⟩ (2, true)).pending
        = [(0, 3)] ++ ScrollAnimations.staggerFrom 0 [3, 4])
    ∧ ((ScrollAnimations.staggerFrom 0 [3, 4])[1]? = some (1 * 100, 4))
    ∧ (ScrollAnimations.revealedB
        (ScrollAnimations.fireTask
          ⟨[⟨1, true, []⟩, ⟨2, false, [3, 4]⟩, ⟨3, false, []⟩, ⟨4, false, []⟩],
           [2, 3, 4], [(0, 3)]⟩ (0, 3)) 3 = true) := by
  have h := reveal_one_shot_staggered
    ⟨[⟨1, true, []⟩, ⟨2, false, [3, 4]⟩, ⟨3, false, []⟩, ⟨4, false, []⟩],
     [2, 3, 4], [(0, 3)]⟩
    [ScrollAnimations.RevealEvent.intersect [(2, true)],
     ScrollAnimations.RevealEvent.fire (0, 3)]
    1 2 ⟨2, false, [3, 4]⟩ (0, 3) ⟨3, false, []⟩
  obtain ⟨hmono, hentry, hfire⟩ := h
  obtain ⟨he1, he2, he3, he4⟩ := hentry rfl
  exact ⟨hmono rfl, he1, he2, he3, he4 1 4 rfl, hfire (by decide) rfl⟩
